import Mathlib

/-!
Verification development for the iot-433mhz RF Code Association and
Notification Engine (index.js plus the rf433mhz transport class).

The handlers of index.js are embedded as pure functions from the incoming
event data, together with oracles standing for the outcomes of the outside
asynchronous calls (putCodeInDB, isCodeAvailable, alarmTriggered, the nedb
remove callback, fs.unlink, serial close), to the list of effects the
handler dispatches, in dispatch order: synchronous calls first, then the
effects produced inside the asynchronous continuations.
-/

/-- A raw code event delivered by the hardware transport: the fields the
engine reads are the code value and the status tag. -/
structure CodeData where
  code : Nat
  status : String
deriving DecidableEq, Repr

/-- The variant-specific device payload of a card. In the source this is a
plain JS object; the engine reads on_code and off_code for switch cards,
trigger_code and armed for alarm cards. -/
structure Device where
  on_code : Nat
  off_code : Nat
  trigger_code : Nat
  armed : Bool
deriving DecidableEq, Repr

/-- A card record: shortname, the type tag string dispatched on by the
handlers, the device payload, and the optional image asset reference. -/
structure Card where
  shortname : String
  type : String
  device : Device
  img : Option String
deriving DecidableEq, Repr

/-- The result object of dbFunctions.isCodeAvailable: isAvailable flag and
the shortname of the owning card when assigned. -/
structure AvailResult where
  isAvailable : Bool
  assignedTo : Option String
deriving DecidableEq, Repr

/-- The observable effects dispatched by the rf433mhz.on code-event handler
of index.js (lines 147-189). -/
inductive Effect where
  | storePutCode (cd : CodeData)
  | logPutError
  | logAvailError
  | emitNewRFCode (cd : CodeData)
  | alarmLookup (s : Option String)
  | emitUiTriggerAlarm (c : Card)
  | webhookAlarmAdvise (c : Card)
  | webhookCodeDetected (cd : CodeData)
  | logAlarmError
deriving DecidableEq, Repr

/-- The continuation attached to dbFunctions.alarmTriggered in index.js
lines 165-174: on a returned card the live uiTriggerAlarm event is emitted,
and when the device is armed the alarm-advise webhook is dispatched too; a
falsy result does nothing; a rejection is logged. These effects happen in a
later microtask than the surrounding handler body. -/
def alarmBranch : Except String (Option Card) → List Effect
  | .error _ => [.logAlarmError]
  | .ok none => []
  | .ok (some card) =>
      .emitUiTriggerAlarm card ::
        (if card.device.armed then [.webhookAlarmAdvise card] else [])

/-- The rf433mhz.on code-event handler of index.js lines 147-189, as the
list of effects it dispatches. `putRes` is the outcome of putCodeInDB,
`availRes` of isCodeAvailable, `alarmRes` of alarmTriggered. The webhook
call webHookCodeDetected is issued synchronously inside the isCodeAvailable
continuation, before the alarmTriggered continuation can run, hence it
precedes `alarmBranch` in the list. -/
def onCodeData (cd : CodeData) (putRes : Except String String)
    (availRes : Except String AvailResult)
    (alarmRes : Except String (Option Card)) : List Effect :=
  if cd.status = "received" then
    .storePutCode cd ::
      (match putRes with
       | .error _ => [.logPutError]
       | .ok _ =>
         match availRes with
         | .error _ => [.logAvailError]
         | .ok r =>
           if r.isAvailable then
             [.emitNewRFCode cd, .webhookCodeDetected cd]
           else
             .alarmLookup r.assignedTo :: .webhookCodeDetected cd ::
               alarmBranch alarmRes)
  else []

/-- Number of code-detected webhook dispatches in an effect list. -/
def countCodeDetected (es : List Effect) : Nat :=
  es.countP (fun e => match e with
    | .webhookCodeDetected _ => true
    | _ => false)

/-- An RFCode record of the code store; only the natural key and the
ignored flag matter to the removal cascade and availability. -/
structure RFCode where
  code : Nat
  ignored : Bool
deriving DecidableEq, Repr

/-- The nedb query object built by the card-removed handler (index.js lines
115-126): an or-match on two code values for a switch card, a single code
match for an alarm card. -/
inductive CodeQuery where
  | orCodes (a b : Nat)
  | single (c : Nat)
deriving DecidableEq, Repr

/-- Whether a code value is matched by a removal query. -/
def matchesQuery : CodeQuery → Nat → Bool
  | .orCodes a b, c => c == a || c == b
  | .single t, c => c == t

/-- The query the removed-card handler passes to db.RFCODES.remove,
dispatched on the card type string; any type other than switch and alarm
yields undefined and no remove call is made (index.js lines 115-136). -/
def codesToRemove (card : Card) : Option CodeQuery :=
  if card.type = "switch" then
    some (.orCodes card.device.on_code card.device.off_code)
  else if card.type = "alarm" then
    some (.single card.device.trigger_code)
  else none

/-- Semantics of db.RFCODES.remove with the multi flag set: delete every
record matching the query, report the number removed; a zero count is a
normal outcome, there is no error for it. -/
def removeWhere (store : List RFCode) (q : CodeQuery) :
    List RFCode × Nat :=
  let kept := store.filter (fun r => !(matchesQuery q r.code))
  (kept, store.length - kept.length)

/-- The observable effects dispatched by the CARDS store lifecycle handlers
of index.js (lines 107-145). -/
inductive CardEffect where
  | removeCall (q : CodeQuery)
  | logRemoveError
  | logNumRemoved (n : Nat)
  | unlinkImg (p : String)
  | logUnlinkError (p : String)
  | logCardDeleted (s : String)
  | emitInitCards
deriving DecidableEq, Repr

/-- The removed-card handler of index.js lines 113-145, as the list of
effects it dispatches. `removeErr` and `numRemoved` stand for the arguments
the nedb remove callback receives, `unlinkFails` for whether fs.unlink
reports an error. The synchronous body runs first (remove call, unlink
call, deletion log, the cards-changed refresh signal); the callback logs
follow, since both callbacks fire on later ticks. -/
def onCardRemoved (card : Card) (removeErr : Option String)
    (numRemoved : Nat) (unlinkFails : Bool) : List CardEffect :=
  (match codesToRemove card with
   | some q => [.removeCall q]
   | none => []) ++
  (match card.img with
   | some p => [.unlinkImg p]
   | none => []) ++
  [.logCardDeleted card.shortname, .emitInitCards] ++
  (match codesToRemove card with
   | some _ =>
     (match removeErr with
      | some _ => [.logRemoveError]
      | none => []) ++ [.logNumRemoved numRemoved]
   | none => []) ++
  (match card.img, unlinkFails with
   | some p, true => [.logUnlinkError p]
   | _, _ => [])

/-- The inserted-card handler of index.js lines 107-111: it only emits the
cards-changed refresh signal. -/
def onCardInserted (_card : Card) : List CardEffect :=
  [.emitInitCards]

/-- The observable effects of the rf433mhz transport data handlers
(platform module, this.on, lines 295-311). -/
inductive SerialEffect where
  | invokeCallback (cd : CodeData)
  | logParseError (raw : String)
deriving DecidableEq, Repr

/-- The per-datum handler registered by rf433mhz.on. On the rpi type the
sniffer handler body is empty (the TODO branch) and the engine callback is
never called; on the arduino type the raw serial line is JSON-parsed and
passed to the callback, a parse failure being logged and the datum
dropped. `parse` stands for JSON.parse, returning none when it throws. -/
def rfOnDataHandler (ty : String) (parse : String → Option CodeData)
    (d : String) : List SerialEffect :=
  if ty = "rpi" then []
  else
    match parse d with
    | some cd => [.invokeCallback cd]
    | none => [.logParseError d]

/-- The handler applied to a whole sequence of arriving data events: the
listener stays registered, so each datum is processed independently. -/
def rfOnHandleAll (ty : String) (parse : String → Option CodeData) :
    List String → List SerialEffect
  | [] => []
  | d :: ds => rfOnDataHandler ty parse d ++ rfOnHandleAll ty parse ds

/-- The observable effects of the SIGINT handler of index.js lines
220-232. -/
inductive SigEffect where
  | logClosing
  | closeTransport
  | logCloseError
  | logPortClosed
  | processExit
deriving DecidableEq, Repr

/-- The SIGINT handler: log, then when the rf433mhz transport variable is
defined close it and only exit inside the close callback (after logging the
close outcome, `closeErr` being the error the callback receives); when the
transport is undefined exit at once. -/
def onSIGINT (rfDefined : Bool) (closeErr : Option String) :
    List SigEffect :=
  .logClosing ::
    (if rfDefined then
      .closeTransport ::
        ((match closeErr with
          | some _ => [.logCloseError]
          | none => [.logPortClosed]) ++ [.processExit])
    else [.processExit])

/-- C1: for a received code that resolves as not available and whose
assigned card comes back from the alarm workflow as an alarm card, the
live uiTriggerAlarm event is always among the dispatched effects, while
the alarm-advise webhook is dispatched exactly when the device armed flag
is set; with armed false only the live event occurs. -/
theorem C1_alarm_gating (code : Nat) (mex : String)
    (assigned : Option String) (card : Card) :
    Effect.emitUiTriggerAlarm card ∈
      onCodeData ⟨code, "received"⟩ (.ok mex) (.ok ⟨false, assigned⟩)
        (.ok (some card)) ∧
    (Effect.webhookAlarmAdvise card ∈
      onCodeData ⟨code, "received"⟩ (.ok mex) (.ok ⟨false, assigned⟩)
        (.ok (some card)) ↔ card.device.armed = true) := by
  cases h : card.device.armed <;> simp [onCodeData, alarmBranch, h]

/-- C3: a received code whose availability resolution succeeds, whether
available or not and whatever the alarm workflow outcome, produces exactly
one code-detected webhook dispatch. -/
theorem C3_code_detected_once (code : Nat) (mex : String) (r : AvailResult)
    (alarmRes : Except String (Option Card)) :
    countCodeDetected
      (onCodeData ⟨code, "received"⟩ (.ok mex) (.ok r) alarmRes) = 1 := by
  obtain ⟨avail, assigned⟩ := r
  cases avail
  · cases alarmRes with
    | error e => simp [onCodeData, countCodeDetected, alarmBranch]
    | ok oc =>
      cases oc with
      | none => simp [onCodeData, countCodeDetected, alarmBranch]
      | some card =>
        cases h : card.device.armed <;>
          simp [onCodeData, countCodeDetected, alarmBranch, h]
  · simp [onCodeData, countCodeDetected]

/-- C4: the engine pipeline runs exactly for events whose status field is
the string received: then the code store upsert is dispatched; for any
other status the handler dispatches nothing at all. -/
theorem C4_status_guard (cd : CodeData) (putRes : Except String String)
    (availRes : Except String AvailResult)
    (alarmRes : Except String (Option Card)) :
    (Effect.storePutCode cd ∈ onCodeData cd putRes availRes alarmRes ↔
      cd.status = "received") ∧
    (onCodeData cd putRes availRes alarmRes = [] ↔
      ¬ cd.status = "received") := by
  by_cases h : cd.status = "received" <;> simp [onCodeData, h]

/-- Witness for C4 at a received event and at a dropped-status event. -/
theorem C4_status_guard_witness :
    ((Effect.storePutCode ⟨7, "received"⟩ ∈
        onCodeData ⟨7, "received"⟩ (.ok "m") (.ok ⟨true, none⟩) (.ok none) ↔
        (⟨7, "received"⟩ : CodeData).status = "received") ∧
     (onCodeData ⟨7, "received"⟩ (.ok "m") (.ok ⟨true, none⟩) (.ok none) = [] ↔
       ¬ (⟨7, "received"⟩ : CodeData).status = "received")) ∧
    ((Effect.storePutCode ⟨7, "sent"⟩ ∈
        onCodeData ⟨7, "sent"⟩ (.ok "m") (.ok ⟨true, none⟩) (.ok none) ↔
        (⟨7, "sent"⟩ : CodeData).status = "received") ∧
     (onCodeData ⟨7, "sent"⟩ (.ok "m") (.ok ⟨true, none⟩) (.ok none) = [] ↔
       ¬ (⟨7, "sent"⟩ : CodeData).status = "received")) :=
  ⟨C4_status_guard ⟨7, "received"⟩ (.ok "m") (.ok ⟨true, none⟩) (.ok none),
   C4_status_guard ⟨7, "sent"⟩ (.ok "m") (.ok ⟨true, none⟩) (.ok none)⟩

/-- C5: a received code that resolves as available dispatches exactly the
store upsert, the newRFCode broadcast to the live sockets and the
code-detected webhook; in particular no alarm lookup and no alarm event,
whatever the alarm oracle would answer. -/
theorem C5_available_branch (code : Nat) (mex : String)
    (assigned : Option String) (alarmRes : Except String (Option Card)) :
    onCodeData ⟨code, "received"⟩ (.ok mex) (.ok ⟨true, assigned⟩) alarmRes =
      [.storePutCode ⟨code, "received"⟩, .emitNewRFCode ⟨code, "received"⟩,
       .webhookCodeDetected ⟨code, "received"⟩] := by
  simp [onCodeData]

/-- C9: in the not-available branch the code-detected webhook call is
issued synchronously, before the alarm workflow continuation can run: the
dispatched front segment is the same for every alarm outcome, the alarm effects
are appended after it, and a rejected alarm lookup is only logged, the
code-detected dispatch still being present. -/
theorem C9_detected_independent_of_alarm (code : Nat) (mex : String)
    (assigned : Option String) (alarmRes : Except String (Option Card)) :
    onCodeData ⟨code, "received"⟩ (.ok mex) (.ok ⟨false, assigned⟩) alarmRes =
      [.storePutCode ⟨code, "received"⟩, .alarmLookup assigned,
       .webhookCodeDetected ⟨code, "received"⟩] ++ alarmBranch alarmRes ∧
    (∀ err : String, alarmBranch (.error err) = [.logAlarmError]) ∧
    Effect.webhookCodeDetected ⟨code, "received"⟩ ∈
      onCodeData ⟨code, "received"⟩ (.ok mex) (.ok ⟨false, assigned⟩)
        alarmRes := by
  refine ⟨by simp [onCodeData], fun err => rfl, ?_⟩
  simp [onCodeData]

/-- C2: the removal query passed to the bulk code removal is determined by
the card type alone: a switch card issues exactly the or-match on its
on_code and off_code, an alarm card exactly the single match on its
trigger_code, and any other type issues no remove call at all; a removal
matching nothing leaves the store unchanged and reports zero, which is not
an error. -/
theorem C2_removal_cascade (sn : String) (d : Device) (img : Option String)
    (e : Option String) (n : Nat) (u : Bool) :
    (∀ q : CodeQuery,
      CardEffect.removeCall q ∈ onCardRemoved ⟨sn, "switch", d, img⟩ e n u ↔
        q = .orCodes d.on_code d.off_code) ∧
    (∀ q : CodeQuery,
      CardEffect.removeCall q ∈ onCardRemoved ⟨sn, "alarm", d, img⟩ e n u ↔
        q = .single d.trigger_code) ∧
    (∀ ty : String, ty = "switch" ∨ ty = "alarm" ∨
      ∀ q : CodeQuery,
        CardEffect.removeCall q ∉ onCardRemoved ⟨sn, ty, d, img⟩ e n u) ∧
    (∀ (store : List RFCode) (q : CodeQuery),
      (∀ r ∈ store, matchesQuery q r.code = false) →
        removeWhere store q = (store, 0)) := by
  refine ⟨?_, ?_, ?_, ?_⟩
  · intro q
    cases img <;> cases e <;> cases u <;>
      simp [onCardRemoved, codesToRemove, eq_comm]
  · intro q
    cases img <;> cases e <;> cases u <;>
      simp [onCardRemoved, codesToRemove, eq_comm]
  · intro ty
    by_cases h1 : ty = "switch"
    · exact Or.inl h1
    by_cases h2 : ty = "alarm"
    · exact Or.inr (Or.inl h2)
    refine Or.inr (Or.inr fun q => ?_)
    cases img <;> cases e <;> cases u <;>
      simp [onCardRemoved, codesToRemove, h1, h2]
  · intro store q h
    have hf : store.filter (fun r => !(matchesQuery q r.code)) = store := by
      apply List.filter_eq_self.mpr
      intro r hr
      simp [h r hr]
    simp [removeWhere, hf]

/-- Witness for C2: a store holding only an unrelated code is untouched by
an alarm removal and reports zero; a switch card issues the or-match
removal call on its two codes. -/
theorem C2_removal_cascade_witness :
    removeWhere [⟨999, false⟩] (.single 555) = ([⟨999, false⟩], 0) ∧
    CardEffect.removeCall (.orCodes 111 222) ∈
      onCardRemoved ⟨"S", "switch", ⟨111, 222, 0, false⟩, none⟩ none 2 false :=
  ⟨(C2_removal_cascade "S" ⟨111, 222, 555, true⟩ none none 0 false).2.2.2
      [⟨999, false⟩] (.single 555) (by decide),
   ((C2_removal_cascade "S" ⟨111, 222, 0, false⟩ none none 2 false).1
      (.orCodes 111 222)).mpr rfl⟩

/-- C6: both lifecycle handlers emit the same cards-changed refresh signal
(emitInitCards); on removal the signal is present for every outcome of the
code-removal callback and of the image unlink, an unlink failure only adds
a log entry and changes nothing about which remove call is issued. -/
theorem C6_refresh_signal (card : Card) (e : Option String) (n : Nat)
    (u : Bool) (p : String) :
    CardEffect.emitInitCards ∈ onCardRemoved card e n u ∧
    onCardInserted card = [CardEffect.emitInitCards] ∧
    (∀ q : CodeQuery,
      CardEffect.removeCall q ∈ onCardRemoved card e n true ↔
        CardEffect.removeCall q ∈ onCardRemoved card e n false) ∧
    CardEffect.logUnlinkError p ∈
      onCardRemoved { card with img := some p } e n true := by
  refine ⟨?_, rfl, ?_, ?_⟩
  · cases hc : codesToRemove card <;> rcases card with ⟨sn, ty, d, img⟩ <;>
      cases img <;> cases e <;> cases u <;> simp_all [onCardRemoved]
  · intro q
    cases hc : codesToRemove card <;> rcases card with ⟨sn, ty, d, img⟩ <;>
      cases img <;> cases e <;> simp_all [onCardRemoved]
  · cases hc : codesToRemove card <;> rcases card with ⟨sn, ty, d, img⟩ <;>
      cases e <;> simp_all [onCardRemoved, codesToRemove]

/-- C7: on the serial transport a datum that fails to JSON-parse is only
logged, the registered engine callback is never invoked for it, and the
remaining data events are handled exactly as if it had not arrived. -/
theorem C7_malformed_payload (parse : String → Option CodeData)
    (d : String) (rest : List String) (h : parse d = none) :
    rfOnDataHandler "arduino" parse d = [.logParseError d] ∧
    (∀ cd : CodeData,
      SerialEffect.invokeCallback cd ∉ rfOnDataHandler "arduino" parse d) ∧
    rfOnHandleAll "arduino" parse (d :: rest) =
      SerialEffect.logParseError d :: rfOnHandleAll "arduino" parse rest := by
  refine ⟨?_, ?_, ?_⟩
  · simp [rfOnDataHandler, h]
  · intro cd
    simp [rfOnDataHandler, h]
  · simp [rfOnHandleAll, rfOnDataHandler, h]

/-- Witness for C7: a parse function that always throws, one malformed
datum followed by a later one. -/
theorem C7_malformed_payload_witness :
    ((fun _ : String => (none : Option CodeData)) "bad" = none) ∧
    (rfOnDataHandler "arduino" (fun _ => none) "bad" =
        [.logParseError "bad"] ∧
      (∀ cd : CodeData, SerialEffect.invokeCallback cd ∉
        rfOnDataHandler "arduino" (fun _ => none) "bad") ∧
      rfOnHandleAll "arduino" (fun _ => none) ["bad", "x"] =
        SerialEffect.logParseError "bad" ::
          rfOnHandleAll "arduino" (fun _ => none) ["x"]) :=
  ⟨rfl, C7_malformed_payload (fun _ => none) "bad" ["x"] rfl⟩

/-- C10: on the rpi transport type the sniffer handler body discards every
datum: no single datum and no sequence of data ever produces a callback
invocation, so no code event enters the engine pipeline. -/
theorem C10_rpi_callback_never (parse : String → Option CodeData)
    (d : String) (ds : List String) :
    rfOnDataHandler "rpi" parse d = [] ∧
    rfOnHandleAll "rpi" parse ds = [] := by
  refine ⟨rfl, ?_⟩
  induction ds with
  | nil => rfl
  | cons x xs ih => simp [rfOnHandleAll, rfOnDataHandler, ih]

/-- C8: on SIGINT with the transport defined the close call is dispatched
and the process exit happens only afterwards, inside the close callback,
as the last effect; with the transport never set up the handler exits
immediately after the log. -/
theorem C8_close_before_exit (closeErr : Option String) :
    SigEffect.closeTransport ∈ onSIGINT true closeErr ∧
    SigEffect.processExit ∈ onSIGINT true closeErr ∧
    (onSIGINT true closeErr).indexOf SigEffect.closeTransport <
      (onSIGINT true closeErr).indexOf SigEffect.processExit ∧
    (onSIGINT true closeErr).getLast? = some SigEffect.processExit ∧
    onSIGINT false closeErr = [SigEffect.logClosing, SigEffect.processExit] := by
  cases closeErr with
  | none => exact ⟨by decide, by decide, by decide, rfl, rfl⟩
  | some err =>
    have h : onSIGINT true (some err) =
        [.logClosing, .closeTransport, .logCloseError, .processExit] := rfl
    rw [h]
    exact ⟨by decide, by decide, by decide, rfl, rfl⟩
